import Mathlib

/-!
Verification development for the libnvwal core (writer ingest, flusher,
fsyncer, metadata store, cursor).  Definitions are shallow embeddings of
the C sources in src/src/nvwal_api.c, src/src/nvwal_impl_cursor.c and
src/src/nvwal_mds.c.  Machine integers (uint64_t) are modelled as Nat with
explicit reduction modulo 2^64 wherever C overflow semantics matter.
-/

namespace Nvwal

/-- The modulus of uint64_t arithmetic, 2^64. -/
def two64 : Nat := 2 ^ 64

/-- The reserved invalid epoch value (kNvwalInvalidEpoch). -/
def kNvwalInvalidEpoch : Nat := 0

/-- The reserved invalid disk sequence id (kNvwalInvalidDsid). -/
def kNvwalInvalidDsid : Nat := 0

/-- The reserved invalid page number (kNvwalInvalidPage). -/
def kNvwalInvalidPage : Nat := 0

/-- Linux errno ETIMEDOUT, the code returned on cooperative cancellation. -/
def kETIMEDOUT : Nat := 110

/-- Modelled from the spec: nvwal_increment_epoch lives in nvwal_types.h,
which is not under src/.  The spec says the epoch is a wrapping 64-bit
identifier whose increment skips the reserved invalid value 0. -/
def nvwal_increment_epoch (e : Nat) : Nat :=
  if (e + 1) % two64 = 0 then 1 else (e + 1) % two64

/-- The uint64 difference (l - r) mod 2^64, for l, r < 2^64. -/
def epoch_diff (l r : Nat) : Nat := (l + two64 - r) % two64

/-- Modelled from the spec: nvwal_is_epoch_after lives in nvwal_types.h,
which is not under src/.  The spec says after(a,b) holds when a-b lies in
the lower half of the 64-bit range; it is strict, so a = b is excluded. -/
def nvwal_is_epoch_after (l r : Nat) : Bool :=
  decide (l ≠ r) && decide (epoch_diff l r < 2 ^ 63)

/-- Modelled from the spec: nvwal_is_epoch_equal_or_after lives in
nvwal_types.h, which is not under src/.  Equality or strict modular
after. -/
def nvwal_is_epoch_equal_or_after (l r : Nat) : Bool :=
  decide (l = r) || nvwal_is_epoch_after l r

/-!  Writer ingest (src/src/nvwal_api.c lines 96-217).  -/

/-- wrap_writer_epoch_frame (nvwal_api.c:96): wraps a frame index into
[0, frame_count), assuming the argument is below 2*frame_count. -/
def wrap_writer_epoch_frame (frame_count current : Nat) : Nat :=
  if current < frame_count then current else current - frame_count

/-- wrap_writer_offset (nvwal_api.c:106): wraps a writer-buffer offset into
[0, buffer_size), assuming the argument is below 2*buffer_size. -/
def wrap_writer_offset (buffer_size offset : Nat) : Nat :=
  if offset < buffer_size then offset else offset - buffer_size

/-- calculate_writer_offset_distance (nvwal_api.c:118): circular distance
from left_offset to right_offset in a buffer of the given size. -/
def calculate_writer_offset_distance (buffer_size left_offset right_offset : Nat) : Nat :=
  if left_offset = right_offset then 0
  else if left_offset < right_offset then right_offset - left_offset
  else right_offset + buffer_size - left_offset

/-- One writer epoch frame (struct NvwalWriterEpochFrame): log_epoch 0
means the frame is unused. -/
structure NvwalWriterEpochFrame where
  log_epoch : Nat
  head_offset : Nat
  tail_offset : Nat
deriving DecidableEq, Repr

instance : Inhabited NvwalWriterEpochFrame := ⟨⟨0, 0, 0⟩⟩

/-- The writer-local part of struct NvwalWriterContext.  The frame ring has
kNvwalEpochFrameCount entries; that constant lives in nvwal_types.h, which
is not under src/, so the frame count is kept as an explicit parameter of
the operations (the spec says F ≥ 4, typically 5). -/
structure NvwalWriterContext where
  active_frame : Nat
  oldest_frame : Nat
  last_tail_offset : Nat
  epoch_frames : List NvwalWriterEpochFrame
deriving DecidableEq, Repr

/-- assure_writer_active_frame (nvwal_api.c:135): make the active frame
correspond to log_epoch.  If the active frame already carries log_epoch it
is reused; if it is unused (log_epoch 0, the idle-writer case) it is
repopulated in place; otherwise active_frame advances by one around the
ring and the new slot is populated.  Population stores
head = tail = last_tail_offset and then publishes log_epoch. -/
def assure_writer_active_frame (frame_count : Nat) (w : NvwalWriterContext)
    (log_epoch : Nat) : NvwalWriterContext :=
  let frame := w.epoch_frames.getD w.active_frame default
  if frame.log_epoch = log_epoch then w
  else
    let active := if frame.log_epoch = kNvwalInvalidEpoch then w.active_frame
      else wrap_writer_epoch_frame frame_count (w.active_frame + 1)
    { w with
      active_frame := active
      epoch_frames := w.epoch_frames.set active
        { log_epoch := log_epoch
          head_offset := w.last_tail_offset
          tail_offset := w.last_tail_offset } }

/-- nvwal_on_wal_write (nvwal_api.c:173): returns the error code and the
updated writer.  buffer_size is the writer's circular buffer size B. -/
def nvwal_on_wal_write (frame_count buffer_size : Nat) (w : NvwalWriterContext)
    (bytes_written log_epoch : Nat) : Nat × NvwalWriterContext :=
  let w1 := assure_writer_active_frame frame_count w log_epoch
  let frame := w1.epoch_frames.getD w1.active_frame default
  let new_tail := wrap_writer_offset buffer_size (frame.tail_offset + bytes_written)
  (0,
   { w1 with
     last_tail_offset := new_tail
     epoch_frames := w1.epoch_frames.set w1.active_frame
       { frame with tail_offset := new_tail } })

/-- nvwal_has_enough_writer_space (nvwal_api.c:204): true when the bytes
consumed from the oldest frame's head to last_tail_offset, doubled, do not
exceed the writer buffer size. -/
def nvwal_has_enough_writer_space (buffer_size : Nat) (w : NvwalWriterContext) : Bool :=
  let frame := w.epoch_frames.getD w.oldest_frame default
  decide (calculate_writer_offset_distance buffer_size
    frame.head_offset w.last_tail_offset * 2 ≤ buffer_size)

/-!  NV segments and the flusher copy step (nvwal_api.c lines 225-542).  -/

/-- struct NvwalLogSegment, restricted to the fields the claims touch. -/
structure NvwalLogSegment where
  dsid : Nat
  written_bytes : Nat
  fsync_requested : Bool
  fsync_completed : Bool
  fsync_error : Nat
  nv_reader_pins : Int
deriving DecidableEq, Repr

instance : Inhabited NvwalLogSegment := ⟨⟨0, 0, false, false, 0, 0⟩⟩

/-- The writable-bytes computation of flusher_copy_one_writer_to_nv
(nvwal_api.c:502): the C source computes
written_bytes_ - segment_size_ in uint64_t arithmetic, which wraps
around whenever written_bytes < segment_size. -/
def flusher_writable_bytes (segment_size written_bytes : Nat) : Nat :=
  (written_bytes + two64 - segment_size) % two64

/-- The copied-bytes computation of flusher_copy_one_writer_to_nv
(nvwal_api.c:503): NVWAL_MIN(writable_bytes, distance). -/
def flusher_copied_bytes (segment_size written_bytes distance : Nat) : Nat :=
  min (flusher_writable_bytes segment_size written_bytes) distance

/-- The copied-bytes computation as the specification states it: the
minimum of the frame's pending distance and the segment's remaining
capacity segment_size - written_bytes.  Kept side by side with
flusher_copied_bytes so the two can be compared. -/
def copied_bytes_per_spec (segment_size written_bytes distance : Nat) : Nat :=
  min (segment_size - written_bytes) distance

/-- Result of one iteration of the copy loop in
flusher_copy_one_writer_to_nv (nvwal_api.c:488-539), counters only. -/
structure CopyStep where
  new_written_bytes : Nat
  new_head : Nat
  frame_retired : Bool
deriving DecidableEq, Repr

/-- One iteration of the copy loop of flusher_copy_one_writer_to_nv
(nvwal_api.c:493-538): reads head and tail, computes the pending circular
distance, copies flusher_copied_bytes bytes, advances the head (retiring
the frame when it drained in a stable epoch) and adds the copied amount to
the segment's written_bytes (uint64 arithmetic).  Returns none when the
distance is zero (the C code returns early). -/
def flusher_copy_step (segment_size buffer_size : Nat)
    (written_bytes head tail : Nat) (is_stable_epoch : Bool) : Option CopyStep :=
  let distance := calculate_writer_offset_distance buffer_size head tail
  if distance = 0 then none
  else
    let copied := flusher_copied_bytes segment_size written_bytes distance
    let new_head := wrap_writer_offset buffer_size (head + copied)
    some
      { new_written_bytes := (written_bytes + copied) % two64
        new_head := new_head
        frame_retired := decide (new_head = tail) && is_stable_epoch }

/-!  Cursor segment materialisation (src/src/nvwal_impl_cursor.c:80-125).  -/

/-- Where cursor_open_segment serves a segment from. -/
inductive CursorSegmentSource
  | disk
  | nv
deriving DecidableEq, Repr

/-- Observable outcome of cursor_open_segment's branch. -/
structure OpenSegmentResult where
  source : CursorSegmentSource
  /-- whether the on-disk file descriptor is still open when the function
  returns (the disk branch mmaps but does not close the fd; it is closed
  later by cursor_close_cur_segment). -/
  fd_open_after : Bool
  /-- whether the NV ring slot was pinned (the source carries only a
  TODO comment at nvwal_impl_cursor.c:116; no pin is taken). -/
  pinned : Bool
deriving DecidableEq, Repr

/-- cursor_open_segment (nvwal_impl_cursor.c:80-125), reduced to its
branch decision and resource effects: the C source takes the on-disk
path (open read-only, mmap the whole segment, keep the fd) exactly when
dsid >= last_synced_dsid, and otherwise serves the bytes from the NV ring
slot's nv_baseaddr without pinning. -/
def cursor_open_segment (dsid last_synced_dsid : Nat) : OpenSegmentResult :=
  if last_synced_dsid ≤ dsid then
    { source := .disk, fd_open_after := true, pinned := false }
  else
    { source := .nv, fd_open_after := false, pinned := false }

/-!  Fsyncer (nvwal_api.c lines 625-736).  -/

/-- The result of one write() call in the fsyncer's chunk loop. -/
inductive WriteChunkResult
  | ok (n : Nat)
  | fail (e : Nat)
deriving DecidableEq, Repr

/-- The write loop of fsyncer_sync_one_segment_to_disk
(nvwal_api.c:692-711), driven by the trace of write() results.  Returns
.error e when a chunk fails with errno e or the cooperative stop turns the
iteration into ETIMEDOUT; .ok true when the whole segment body was
written; .ok false when the trace ran out before either happened (the C
loop would issue another write). -/
def fsyncer_write_loop (segment_size : Nat) (stop_requested : Bool) :
    Nat → List WriteChunkResult → Except Nat Bool
  | total, [] => if segment_size ≤ total then .ok true else .ok false
  | total, r :: rest =>
    if segment_size ≤ total then .ok true
    else
      match r with
      | .fail e => .error e
      | .ok n =>
        if stop_requested then .error kETIMEDOUT
        else fsyncer_write_loop segment_size stop_requested (total + n) rest

/-- Observable outcome of fsyncer_sync_one_segment_to_disk. -/
structure FsyncOutcome where
  ret : Nat
  segment : NvwalLogSegment
  cb_last_synced_dsid : Nat
  /-- whether the disk fd is still open on return (the source closes it on
  every path that opened it). -/
  fd_open : Bool
deriving DecidableEq, Repr

/-- fsyncer_sync_one_segment_to_disk (nvwal_api.c:668-736).  open_result
is none when the open succeeded and some errno otherwise; write_trace
drives the chunk loop.  The function first clears fsync_error, then on a
write error records the captured errno into fsync_error, closes the fd
and returns the errno without touching fsync_completed or the control
block's last_synced_dsid; on success it sets fsync_completed and durably
bumps last_synced_dsid to the segment's dsid.  Returns none when the
trace does not determine the loop's outcome. -/
def fsyncer_sync_one_segment_to_disk (segment_size : Nat) (stop_requested : Bool)
    (seg : NvwalLogSegment) (cb_last_synced_dsid : Nat)
    (open_result : Option Nat) (write_trace : List WriteChunkResult) :
    Option FsyncOutcome :=
  let seg0 := { seg with fsync_error := 0 }
  match open_result with
  | some e =>
    some { ret := e, segment := { seg0 with fsync_error := e }
           cb_last_synced_dsid := cb_last_synced_dsid, fd_open := false }
  | none =>
    match fsyncer_write_loop segment_size stop_requested 0 write_trace with
    | .error e =>
      some { ret := e, segment := { seg0 with fsync_error := e }
             cb_last_synced_dsid := cb_last_synced_dsid, fd_open := false }
    | .ok false => none
    | .ok true =>
      some { ret := 0, segment := { seg0 with fsync_completed := true }
             cb_last_synced_dsid := seg.dsid, fd_open := false }

/-!  Metadata store (src/src/nvwal_mds.c).  -/

/-- struct MdsEpochMetadata (one 64-byte failure-atomic record).  The C
sources leave user_metadata_0_/1_ uninitialised when the flusher composes
a record; they are carried but never constrained by the claims. -/
structure MdsEpochMetadata where
  epoch_id : Nat
  from_seg_id : Nat
  from_offset : Nat
  to_seg_id : Nat
  to_off : Nat
  user_metadata_0 : Nat
  user_metadata_1 : Nat
deriving DecidableEq, Repr

instance : Inhabited MdsEpochMetadata := ⟨⟨0, 0, 0, 0, 0, 0, 0⟩⟩

/-- Modelled from the spec: max_epochs_per_page lives in nvwal_impl_mds.h,
which is not under src/.  A page holds floor(page_size / 64) records. -/
def max_epochs_per_page (page_size : Nat) : Nat := page_size / 64

/-- Modelled from the spec: epoch_id_to_page_no lives in nvwal_impl_mds.h,
which is not under src/.  Pages are 1-based and hold epochs_per_page
records each; the invalid epoch maps to the invalid page 0.  The 1-based
indexing is pinned down by the spec's scenarios: with 64 epochs per page,
epoch 65 is the first epoch of page 2 (scenario 4), so epoch e lives on
page floor((e-1)/epochs_per_page) + 1. -/
def epoch_id_to_page_no (epochs_per_page e : Nat) : Nat :=
  if e = kNvwalInvalidEpoch then kNvwalInvalidPage
  else (e - 1) / epochs_per_page + 1

/-- Modelled from the spec: epoch_id_to_page_offset lives in
nvwal_impl_mds.h, which is not under src/.  With the 1-based pages above,
epoch e sits at record offset (e-1) mod epochs_per_page of its page
(scenario 4: epoch 65 is at offset 0 of page 2 when a page holds 64). -/
def epoch_id_to_page_offset (epochs_per_page e : Nat) : Nat :=
  (e - 1) % epochs_per_page

/-- A buffered page's contents: the slot writes performed on it, newest
first (pmem_memcpy_persist of a record to a slot shadows what was there;
slots never written keep whatever the page held before, which the C code
does not clear on recycle). -/
abbrev MdsPage := List (Nat × MdsEpochMetadata)

/-- Write one record at a slot of a page. -/
def mds_page_write (p : MdsPage) (slot : Nat) (r : MdsEpochMetadata) : MdsPage :=
  (slot, r) :: p

/-- struct NvwalMdsBuffer: the NVDIMM-resident write buffer of one page
file.  page_no 0 means the buffer is empty. -/
structure NvwalMdsBuffer where
  page_no : Nat
  dirty : Bool
  page : MdsPage
deriving DecidableEq, Repr

/-- Error outcomes of the MDS operations.  einval and enobufs mirror the C
errno returns; fatalAssert stands for the assert(0) branch of
mds_bufmgr_alloc_page; ioStuck stands for mds_io_pread spinning forever
when asked to read past the end of the page file (its while loop never
exits once pread starts returning 0). -/
inductive MdsErr
  | einval
  | enobufs
  | fatalAssert
  | ioStuck
deriving DecidableEq, Repr

/-- mds_bufmgr_alloc_page (nvwal_mds.c:777-819): an empty buffer adopts
the requested page; the buffered page is reused (marked dirty); the next
page recycles the buffer only when it is clean, else ENOBUFS; any other
request is a fatal programmer error. -/
def mds_bufmgr_alloc_page (buffer : NvwalMdsBuffer) (page_no : Nat) :
    Except MdsErr NvwalMdsBuffer :=
  if page_no = kNvwalInvalidPage then .error .einval
  else
    let buffer := if buffer.page_no = 0 then { buffer with page_no := page_no } else buffer
    if page_no = buffer.page_no then .ok { buffer with dirty := true }
    else if page_no = buffer.page_no + 1 then
      if buffer.dirty then .error .enobufs
      else .ok { buffer with page_no := page_no, dirty := true }
    else .error .fatalAssert

/-- The MDS state for one page-file slot together with the control-block
fields the MDS reads and writes.  The page file is the list of pages
appended so far (page p, 1-based, at index p-1). -/
structure MdsState where
  buffer : NvwalMdsBuffer
  pagefile : List MdsPage
  latest_epoch : Nat
  cb_durable : Nat
  cb_paged : Nat
deriving DecidableEq, Repr

/-- mds_bufmgr_writeback (nvwal_mds.c:855-866): append every dirty buffer
to its page file (mds_io_append_page then fsync) and mark it clean. -/
def mds_bufmgr_writeback (st : MdsState) : MdsState :=
  if st.buffer.dirty then
    { st with
      pagefile := st.pagefile ++ [st.buffer.page]
      buffer := { st.buffer with dirty := false } }
  else st

/-- mds_bufmgr_read_page (nvwal_mds.c:831-849): destructively read a page
of the page file into the buffer and mark it buffered and dirty.  The C
read loop never terminates when the page lies past the end of the file
(mds_io_pread spins on pread returning 0), so that case is modelled as
the error ioStuck. -/
def mds_bufmgr_read_page (st : MdsState) (page_no : Nat) :
    Except MdsErr MdsState :=
  if 1 ≤ page_no ∧ page_no ≤ st.pagefile.length then
    .ok { st with
          buffer :=
            { page_no := page_no, dirty := true
              page := st.pagefile.getD (page_no - 1) [] } }
  else .error .ioStuck

/-- mds_write_epoch (nvwal_mds.c:1226-1268): resolve the page from the
record's epoch id, acquire the buffer (on ENOBUFS: write back all dirty
buffers, durably record paged_mds_epoch := current durable epoch, retry
the allocation exactly once and propagate a second failure), persist the
record to its slot, bump latest_epoch by one (uint64 fetch-add) and
durably set the control block's durable_epoch to the record's epoch id.
epochs_per_page is max_epochs_per_page of the configured page size. -/
def mds_write_epoch (epochs_per_page : Nat) (st : MdsState)
    (meta : MdsEpochMetadata) : Except MdsErr MdsState :=
  let page_no := epoch_id_to_page_no epochs_per_page meta.epoch_id
  let finish : MdsState → NvwalMdsBuffer → MdsState := fun st buf =>
    { st with
      buffer :=
        { buf with
          page := mds_page_write buf.page
            (epoch_id_to_page_offset epochs_per_page meta.epoch_id) meta }
      latest_epoch := (st.latest_epoch + 1) % two64
      cb_durable := meta.epoch_id }
  match mds_bufmgr_alloc_page st.buffer page_no with
  | .ok buf => .ok (finish st buf)
  | .error .enobufs =>
    let st1 := mds_bufmgr_writeback st
    let st2 := { st1 with cb_paged := st1.cb_durable }
    match mds_bufmgr_alloc_page st2.buffer page_no with
    | .ok buf => .ok (finish st2 buf)
    | .error e => .error e
  | .error e => .error e

/-- mds_rollback_to_epoch (nvwal_mds.c:1286-1312): durably set the control
block's durable_epoch to the target epoch; when the target lies strictly
below paged_mds_epoch, read the epoch's owning page back into the buffer,
truncate the page file to the pages before it, and durably set
paged_mds_epoch to epochs_per_page times the truncated page count;
finally lower the in-memory latest_epoch to the target when it exceeded
it (plain uint64 comparisons throughout, as in the C source). -/
def mds_rollback_to_epoch (epochs_per_page : Nat) (st : MdsState)
    (epoch : Nat) : Except MdsErr MdsState :=
  let st := { st with cb_durable := epoch }
  if epoch < st.cb_paged then
    let page_no := epoch_id_to_page_no epochs_per_page epoch
    match mds_bufmgr_read_page st page_no with
    | .error e => .error e
    | .ok st1 =>
      let new_latest_paged_page := page_no - 1
      let st2 :=
        { st1 with
          pagefile := st1.pagefile.take new_latest_paged_page
          cb_paged := epochs_per_page * new_latest_paged_page }
      if epoch < st2.latest_epoch then .ok { st2 with latest_epoch := epoch }
      else .ok st2
  else
    if epoch < st.latest_epoch then .ok { st with latest_epoch := epoch }
    else .ok st

/-!  The flusher's epoch conclusion (nvwal_api.c:334-405) over a context
that carries the segment ring, the epoch-head snapshot, the two epoch
variables and the MDS state.  -/

/-- The flusher-relevant part of struct NvwalContext. -/
structure NvwalContextFl where
  segment_count : Nat
  segments : List NvwalLogSegment
  flusher_current_nv_segment_dsid : Nat
  flusher_current_epoch_head_dsid : Nat
  flusher_current_epoch_head_offset : Nat
  durable_epoch : Nat
  stable_epoch : Nat
  mds : MdsState
deriving DecidableEq, Repr

/-- flusher_get_segment_from_dsid (nvwal_api.c:225): ring slot
(dsid-1) mod segment_count. -/
def flusher_get_segment_from_dsid (wal : NvwalContextFl) (dsid : Nat) :
    NvwalLogSegment :=
  wal.segments.getD ((dsid - 1) % wal.segment_count) default

/-- flusher_get_cur_segment (nvwal_api.c:233). -/
def flusher_get_cur_segment (wal : NvwalContextFl) : NvwalLogSegment :=
  flusher_get_segment_from_dsid wal wal.flusher_current_nv_segment_dsid

/-- flusher_conclude_stable_epoch (nvwal_api.c:334-405): compose the epoch
metadata record from the epoch-head snapshot and the current segment's
cursor (the persist loop over the spanned NV ranges changes no state),
write it through mds_write_epoch (with the function's own ENOBUFS
handling: durably bump the control block's paged_mds_epoch to the
volatile durable epoch and retry once; note the mds_evict_page call is
only a TODO comment in the source), then durably store the target into
the control block's durable_epoch, publish it to the volatile
durable_epoch, and snapshot the new epoch head from the current segment.
Returns the record alongside the updated context.  The record's two
user_metadata words are uninitialised in the C source; they are left as
the default 0 here and no claim constrains them. -/
def flusher_conclude_stable_epoch (epochs_per_page : Nat)
    (wal : NvwalContextFl) (target_epoch : Nat) :
    Except MdsErr (NvwalContextFl × MdsEpochMetadata) :=
  let cur_segment := flusher_get_cur_segment wal
  let new_meta : MdsEpochMetadata :=
    { epoch_id := target_epoch
      from_seg_id := wal.flusher_current_epoch_head_dsid
      from_offset := wal.flusher_current_epoch_head_offset
      to_seg_id := cur_segment.dsid
      to_off := cur_segment.written_bytes
      user_metadata_0 := 0
      user_metadata_1 := 0 }
  let after_mds : Except MdsErr MdsState :=
    match mds_write_epoch epochs_per_page wal.mds new_meta with
    | .ok m => .ok m
    | .error .enobufs =>
      let m1 := { wal.mds with cb_paged := wal.durable_epoch }
      mds_write_epoch epochs_per_page m1 new_meta
    | .error e => .error e
  match after_mds with
  | .error e => .error e
  | .ok m =>
    let wal1 :=
      { wal with
        mds := { m with cb_durable := target_epoch }
        durable_epoch := target_epoch }
    let cur1 := flusher_get_cur_segment wal1
    .ok
      ({ wal1 with
         flusher_current_epoch_head_dsid := cur1.dsid
         flusher_current_epoch_head_offset := cur1.written_bytes }, new_meta)

/-!  The epoch-variable state machine (stable, durable, paged) built from
nvwal_advance_stable_epoch (nvwal_api.c:59-75), flusher_main_loop
(nvwal_api.c:407-449) and the paged_mds_epoch updates performed inside
epoch conclusion (nvwal_api.c:375-390, nvwal_mds.c:1240-1249).  -/

/-- The three epoch fields the ordering invariant speaks about. -/
structure EpochState where
  stable : Nat
  durable : Nat
  paged : Nat
deriving DecidableEq, Repr

/-- nvwal_advance_stable_epoch (nvwal_api.c:59-75): returns the error code
and the updated state.  The call silently returns 0 unless the requested
epoch is exactly increment(durable_epoch); the update itself is a
compare-and-swap of stable_epoch whose expected value is the loaded
durable_epoch. -/
def nvwal_advance_stable_epoch (st : EpochState) (new_stable_epoch : Nat) :
    Nat × EpochState :=
  if nvwal_increment_epoch st.durable ≠ new_stable_epoch then (0, st)
  else if st.stable = st.durable then (0, { st with stable := new_stable_epoch })
  else (0, st)

/-- One transition of the epoch variables: a client call of
nvwal_advance_stable_epoch with an arbitrary argument, or one epoch
conclusion by the flusher (flusher_main_loop concludes
target = increment(durable) exactly when it equals stable_epoch and
differs from durable; the conclusion durably advances durable_epoch to
the target, and its ENOBUFS path first durably sets paged_mds_epoch to
the durable epoch current at that moment). -/
inductive EngineStep : EpochState → EpochState → Prop
  | advance (st : EpochState) (e : Nat) :
      EngineStep st (nvwal_advance_stable_epoch st e).2
  | conclude (st : EpochState)
      (hstable : st.stable = nvwal_increment_epoch st.durable)
      (hne : nvwal_increment_epoch st.durable ≠ st.durable) :
      EngineStep st { st with durable := st.stable }
  | concludePaged (st : EpochState)
      (hstable : st.stable = nvwal_increment_epoch st.durable)
      (hne : nvwal_increment_epoch st.durable ≠ st.durable) :
      EngineStep st { stable := st.stable, durable := st.stable, paged := st.durable }

/-- n-step reachability of the epoch state machine. -/
inductive ReachableN : Nat → EpochState → EpochState → Prop
  | refl (st : EpochState) : ReachableN 0 st st
  | step {n : Nat} {st st1 st2 : EpochState} :
      ReachableN n st st1 → EngineStep st1 st2 → ReachableN (n + 1) st st2

/-- The valid epoch reached after n increments of epoch 1: increment walks
the cycle 1, 2, ..., 2^64 - 1, 1, ... of length 2^64 - 1. -/
def epochAt (n : Nat) : Nat := n % (two64 - 1) + 1

/-- Refinement invariant for the epoch state machine: the three epoch
fields are the epochs reached after p, d and s increments, the paged
counter never passes the durable one, and the stable counter is the
durable one or its successor. -/
def GhostInv (st : EpochState) (p d s : Nat) : Prop :=
  st.paged = epochAt p ∧ st.durable = epochAt d ∧ st.stable = epochAt s ∧
  p ≤ d ∧ d ≤ s ∧ s ≤ d + 1

/-!  Theorems.  -/

theorem getD_set_self {α : Type} (l : List α) (i : Nat) (a d : α)
    (h : i < l.length) : (l.set i a).getD i d = a := by
  simp [List.getD, List.getElem?_set_eq_of_lt, h]

/-- C1: in flusher_copy_one_writer_to_nv the number of bytes copied per
step is NOT the minimum of the pending distance and the remaining segment
capacity: nvwal_api.c:502 computes written_bytes - segment_size (which
wraps in uint64), not segment_size - written_bytes.  At segment_size 8,
written_bytes 4, buffer size 16, head 0 and tail 6 (distance 6, and the
entry assertion written_bytes <= segment_size holds), the step copies all
6 pending bytes instead of the spec's min(6, 8-4) = 4, leaving
written_bytes at 10 > segment_size, so the invariant the claim states is
violated and the assert at nvwal_api.c:501 fails on the next call. -/
theorem C1_copy_step_overflows_segment :
    flusher_copied_bytes 8 4 6 = 6 ∧
    copied_bytes_per_spec 8 4 6 = 4 ∧
    flusher_copy_step 8 16 4 0 6 true =
      some { new_written_bytes := 10, new_head := 6, frame_retired := true } ∧
    ¬ (10 : Nat) ≤ 8 := by
  refine ⟨?_, by decide, ?_, by decide⟩
  · unfold flusher_copied_bytes flusher_writable_bytes two64
    decide
  · unfold flusher_copy_step flusher_copied_bytes flusher_writable_bytes
      calculate_writer_offset_distance wrap_writer_offset two64
    decide

/-- C2: cursor_open_segment takes the on-disk branch (open, mmap, fd kept
open, no pin) exactly when last_synced_dsid <= dsid
(nvwal_impl_cursor.c:90).  For dsid 5 with last_synced_dsid 3 the segment
has not yet been synced by the fsyncer, yet the code opens the on-disk
file instead of serving the NVDIMM ring slot, so the claim's case split
(dsid > last_synced_dsid served from NV with a pin; dsid <=
last_synced_dsid mmapped with the fd closed after mapping) does not
describe the code. -/
theorem C2_open_segment_branch_inverted :
    (3 : Nat) < 5 ∧
    cursor_open_segment 5 3 =
      { source := .disk, fd_open_after := true, pinned := false } ∧
    cursor_open_segment 2 3 =
      { source := .nv, fd_open_after := false, pinned := false } := by
  decide

/-- C8: nvwal_has_enough_writer_space returns true exactly when the
circular distance from the oldest frame's head_offset to
last_tail_offset is at most half the writer buffer size
(nvwal_api.c:204-217). -/
theorem C8_has_enough_space_iff_half_buffer (buffer_size : Nat)
    (w : NvwalWriterContext) :
    nvwal_has_enough_writer_space buffer_size w = true ↔
      calculate_writer_offset_distance buffer_size
        (w.epoch_frames.getD w.oldest_frame default).head_offset
        w.last_tail_offset ≤ buffer_size / 2 := by
  unfold nvwal_has_enough_writer_space
  rw [decide_eq_true_eq, Nat.le_div_iff_mul_le (by norm_num)]

/-- C9: whenever a write() chunk fails during
fsyncer_sync_one_segment_to_disk (the chunk loop returns the captured
errno), the function records that errno into the segment's fsync_error,
closes the file descriptor, and returns the errno, leaving
fsync_completed unchanged (0 at entry by the function's assertion) and
the control block's last_synced_dsid untouched (nvwal_api.c:668-736). -/
theorem C9_fsync_write_error_path (segment_size : Nat) (stop_requested : Bool)
    (seg : NvwalLogSegment) (cb_last_synced_dsid : Nat)
    (write_trace : List WriteChunkResult) (e : Nat)
    (hloop : fsyncer_write_loop segment_size stop_requested 0 write_trace = .error e) :
    fsyncer_sync_one_segment_to_disk segment_size stop_requested seg
        cb_last_synced_dsid none write_trace =
      some { ret := e, segment := { seg with fsync_error := e }
             cb_last_synced_dsid := cb_last_synced_dsid, fd_open := false } ∧
    ({ seg with fsync_error := e } : NvwalLogSegment).fsync_completed
      = seg.fsync_completed := by
  refine ⟨?_, rfl⟩
  unfold fsyncer_sync_one_segment_to_disk
  rw [hloop]

/-- Witness for C9 at segment_size 10 with the trace: a short write of 4
bytes followed by a write failing with errno 28 (ENOSPC). -/
theorem C9_fsync_write_error_path_witness :
    fsyncer_sync_one_segment_to_disk 10 false
        { dsid := 3, written_bytes := 10, fsync_requested := true
          fsync_completed := false, fsync_error := 0, nv_reader_pins := 0 }
        2 none [.ok 4, .fail 28] =
      some { ret := 28
             segment :=
               { dsid := 3, written_bytes := 10, fsync_requested := true
                 fsync_completed := false, fsync_error := 28, nv_reader_pins := 0 }
             cb_last_synced_dsid := 2, fd_open := false } :=
  (C9_fsync_write_error_path 10 false
    { dsid := 3, written_bytes := 10, fsync_requested := true
      fsync_completed := false, fsync_error := 0, nv_reader_pins := 0 }
    2 [.ok 4, .fail 28] 28 rfl).1

/-- C10: nvwal_advance_stable_epoch always returns 0; it never changes
durable_epoch or paged_mds_epoch; any argument other than
increment(durable_epoch) leaves the state entirely unchanged with no
error reported; and when the state does change, the argument was exactly
increment(durable_epoch), the compare-and-swap saw stable_epoch equal to
durable_epoch, and stable_epoch became the argument
(nvwal_api.c:59-75). -/
theorem C10_advance_stable_epoch_silent (st : EpochState) (e : Nat) :
    (nvwal_advance_stable_epoch st e).1 = 0 ∧
    (nvwal_advance_stable_epoch st e).2.durable = st.durable ∧
    (nvwal_advance_stable_epoch st e).2.paged = st.paged ∧
    (e ≠ nvwal_increment_epoch st.durable → (nvwal_advance_stable_epoch st e).2 = st) ∧
    ((nvwal_advance_stable_epoch st e).2 ≠ st →
      e = nvwal_increment_epoch st.durable ∧ st.stable = st.durable ∧
      (nvwal_advance_stable_epoch st e).2.stable = e) := by
  unfold nvwal_advance_stable_epoch
  by_cases h1 : nvwal_increment_epoch st.durable = e
  · by_cases h2 : st.stable = st.durable <;>
      simp_all +contextual
  · simp_all +contextual [Ne.symm h1]

/-- Witness for C10: epoch 5 is not increment(durable) = 2, so the call
on state (stable 1, durable 1, paged 1) returns 0 and changes nothing. -/
theorem C10_advance_stable_epoch_silent_witness :
    (nvwal_advance_stable_epoch ⟨1, 1, 1⟩ 5).1 = 0 ∧
    (nvwal_advance_stable_epoch ⟨1, 1, 1⟩ 5).2 = ⟨1, 1, 1⟩ := by
  have h := C10_advance_stable_epoch_silent ⟨1, 1, 1⟩ 5
  exact ⟨h.1, h.2.2.2.1 (by decide)⟩

/-- C5: when the first buffer allocation in mds_write_epoch returns
ENOBUFS (the record's page is the buffered page plus one and the buffer
is dirty), the function writes the dirty buffer back to the page file,
durably sets the control block's paged_mds_epoch to the current durable
epoch, retries the allocation exactly once (the retry succeeds, and its
error would be propagated if it failed), persists the 64-byte record to
its deterministic slot of the now-buffered page, bumps latest_epoch, and
durably sets the control block's durable_epoch to the record's epoch id
(nvwal_mds.c:1226-1268, 777-819). -/
theorem C5_write_epoch_enobufs_retry (epochs_per_page : Nat) (st : MdsState)
    (meta : MdsEpochMetadata)
    (hpn : epoch_id_to_page_no epochs_per_page meta.epoch_id = st.buffer.page_no + 1)
    (hbp : st.buffer.page_no ≠ 0)
    (hdirty : st.buffer.dirty = true) :
    mds_write_epoch epochs_per_page st meta =
      .ok { buffer :=
              { page_no := st.buffer.page_no + 1, dirty := true
                page := mds_page_write st.buffer.page
                  (epoch_id_to_page_offset epochs_per_page meta.epoch_id) meta }
            pagefile := st.pagefile ++ [st.buffer.page]
            latest_epoch := (st.latest_epoch + 1) % two64
            cb_durable := meta.epoch_id
            cb_paged := st.cb_durable } := by
  unfold mds_write_epoch mds_bufmgr_alloc_page mds_bufmgr_writeback
  rw [hpn]
  simp [kNvwalInvalidPage, hbp, hdirty, Nat.succ_ne_self]

/-- Witness for C5: a dirty buffer holding page 1 of an 8-records-per-page
file receives epoch 9 (page 2, slot 0): page 1 is written back, paged
becomes the durable epoch 8, and the record lands in the recycled
buffer. -/
theorem C5_write_epoch_enobufs_retry_witness :
    mds_write_epoch 8
      { buffer := { page_no := 1, dirty := true, page := [] }
        pagefile := [], latest_epoch := 5, cb_durable := 8, cb_paged := 0 }
      { epoch_id := 9, from_seg_id := 1, from_offset := 0, to_seg_id := 1
        to_off := 100, user_metadata_0 := 0, user_metadata_1 := 0 } =
      .ok { buffer :=
              { page_no := 2, dirty := true
                page := [(0,
                  { epoch_id := 9, from_seg_id := 1, from_offset := 0
                    to_seg_id := 1, to_off := 100, user_metadata_0 := 0
                    user_metadata_1 := 0 })] }
            pagefile := [[]], latest_epoch := 6, cb_durable := 9
            cb_paged := 8 } := by
  have h := C5_write_epoch_enobufs_retry 8
    { buffer := { page_no := 1, dirty := true, page := [] }
      pagefile := [], latest_epoch := 5, cb_durable := 8, cb_paged := 0 }
    { epoch_id := 9, from_seg_id := 1, from_offset := 0, to_seg_id := 1
      to_off := 100, user_metadata_0 := 0, user_metadata_1 := 0 }
    (by decide) (by decide) rfl
  exact h.trans (congrArg Except.ok (by decide))

/-- C6 counterexample: with 8 epochs per page (page size 512) and target
epoch 8, mds_rollback_to_epoch resets paged_mds_epoch to
8 * (page_no(8) - 1) = 8 * floor(7/8) = 0, not to
8 * floor(8/8) = 8 as the claim's gloss states: the two differ whenever
epochs_per_page divides the epoch. -/
theorem C6_rollback_paged_counterexample :
    mds_rollback_to_epoch 8
      { buffer := { page_no := 3, dirty := false, page := [] }
        pagefile := [[]], latest_epoch := 50, cb_durable := 100, cb_paged := 100 }
      8 =
      .ok { buffer := { page_no := 1, dirty := true, page := [] }
            pagefile := [], latest_epoch := 8, cb_durable := 8, cb_paged := 0 } ∧
    (0 : Nat) ≠ 8 * (8 / 8) := by
  refine ⟨?_, by decide⟩
  unfold mds_rollback_to_epoch mds_bufmgr_read_page epoch_id_to_page_no
    kNvwalInvalidEpoch kNvwalInvalidPage
  norm_num

/-- C6 as amended: mds_rollback_to_epoch durably sets the control block's
durable_epoch to e; when e < paged_mds_epoch it additionally reads e's
owning page into the NV buffer, truncates the page file to the pages
strictly before that page, and durably resets paged_mds_epoch to
epochs_per_page * (page_no(e) - 1) = K * floor((e-1)/K); otherwise the
buffer, page file and paged_mds_epoch are untouched; in all cases the
in-memory latest_epoch is lowered to e exactly when it exceeded e
(nvwal_mds.c:1286-1312). -/
theorem C6_rollback_spec (epochs_per_page : Nat) (st : MdsState) (e : Nat)
    (he : 1 ≤ e)
    (hpage : e < st.cb_paged →
      epoch_id_to_page_no epochs_per_page e ≤ st.pagefile.length) :
    ∃ st1, mds_rollback_to_epoch epochs_per_page st e = .ok st1 ∧
      st1.cb_durable = e ∧
      st1.latest_epoch = (if e < st.latest_epoch then e else st.latest_epoch) ∧
      (e < st.cb_paged →
        st1.cb_paged = epochs_per_page * ((e - 1) / epochs_per_page) ∧
        st1.pagefile = st.pagefile.take ((e - 1) / epochs_per_page) ∧
        st1.buffer =
          { page_no := (e - 1) / epochs_per_page + 1, dirty := true
            page := st.pagefile.getD ((e - 1) / epochs_per_page) [] }) ∧
      (¬ e < st.cb_paged →
        st1.cb_paged = st.cb_paged ∧ st1.pagefile = st.pagefile ∧
        st1.buffer = st.buffer) := by
  have hpn : epoch_id_to_page_no epochs_per_page e = (e - 1) / epochs_per_page + 1 := by
    unfold epoch_id_to_page_no kNvwalInvalidEpoch
    rw [if_neg (by omega)]
  unfold mds_rollback_to_epoch mds_bufmgr_read_page
  by_cases hlt : e < st.cb_paged
  · have hp := hpage hlt
    rw [hpn] at hp ⊢
    simp only [hlt, if_true, Nat.add_sub_cancel]
    rw [if_pos ⟨Nat.succ_le_succ (Nat.zero_le _), hp⟩]
    by_cases hlat : e < st.latest_epoch <;>
      simp [hlat, hlt]
  · simp only [hlt, if_false]
    by_cases hlat : e < st.latest_epoch <;>
      simp [hlat, hlt]

/-- Witness for the amended C6 at epochs_per_page 8 and epoch 8 with
paged_mds_epoch 100: the rollback succeeds, durable becomes 8 and paged
becomes 8 * floor(7/8) = 0. -/
theorem C6_rollback_spec_witness :
    ∃ st1, mds_rollback_to_epoch 8
      { buffer := { page_no := 3, dirty := false, page := [] }
        pagefile := [[]], latest_epoch := 50, cb_durable := 100, cb_paged := 100 }
      8 = .ok st1 ∧ st1.cb_durable = 8 ∧ st1.cb_paged = 8 * (7 / 8) := by
  obtain ⟨st1, h1, h2, _, h4, _⟩ := C6_rollback_spec 8
    { buffer := { page_no := 3, dirty := false, page := [] }
      pagefile := [[]], latest_epoch := 50, cb_durable := 100, cb_paged := 100 }
    8 (by decide) (fun _ => by decide)
  exact ⟨st1, h1, h2, (h4 (by decide)).1⟩

/-- C4: whenever flusher_conclude_stable_epoch succeeds, the epoch record
it wrote is composed of the target epoch, the epoch-head snapshot taken
before the call as its from pair, and the current segment's (dsid,
written_bytes) as its to pair; and the epoch-head snapshot after the call
is exactly that record's to pair (nvwal_api.c:334-405). -/
theorem C4_conclude_record_and_head (epochs_per_page : Nat)
    (wal : NvwalContextFl) (target_epoch : Nat) (wal1 : NvwalContextFl)
    (meta : MdsEpochMetadata)
    (h : flusher_conclude_stable_epoch epochs_per_page wal target_epoch
      = .ok (wal1, meta)) :
    meta.epoch_id = target_epoch ∧
    meta.from_seg_id = wal.flusher_current_epoch_head_dsid ∧
    meta.from_offset = wal.flusher_current_epoch_head_offset ∧
    meta.to_seg_id = (flusher_get_cur_segment wal).dsid ∧
    meta.to_off = (flusher_get_cur_segment wal).written_bytes ∧
    wal1.flusher_current_epoch_head_dsid = meta.to_seg_id ∧
    wal1.flusher_current_epoch_head_offset = meta.to_off := by
  unfold flusher_conclude_stable_epoch at h
  simp only [] at h
  split at h
  · exact absurd h (by simp)
  · rw [Except.ok.injEq, Prod.mk.injEq] at h
    obtain ⟨hw, hm⟩ := h
    subst hw
    subst hm
    simp [flusher_get_cur_segment, flusher_get_segment_from_dsid]

/-- Witness for C4: a two-slot ring whose current segment (dsid 1) holds
100 bytes, epoch head (1, 0), an empty MDS buffer, concluding target
epoch 2. -/
theorem C4_conclude_record_and_head_witness :
    ({ epoch_id := 2, from_seg_id := 1, from_offset := 0, to_seg_id := 1
       to_off := 100, user_metadata_0 := 0, user_metadata_1 := 0 }
      : MdsEpochMetadata).epoch_id = 2 ∧
    ({ epoch_id := 2, from_seg_id := 1, from_offset := 0, to_seg_id := 1
       to_off := 100, user_metadata_0 := 0, user_metadata_1 := 0 }
      : MdsEpochMetadata).from_seg_id =
      ({ segment_count := 2
         segments := [{ dsid := 1, written_bytes := 100, fsync_requested := false
                        fsync_completed := false, fsync_error := 0, nv_reader_pins := 0 },
                      { dsid := 0, written_bytes := 0, fsync_requested := false
                        fsync_completed := false, fsync_error := 0, nv_reader_pins := 0 }]
         flusher_current_nv_segment_dsid := 1
         flusher_current_epoch_head_dsid := 1
         flusher_current_epoch_head_offset := 0
         durable_epoch := 1, stable_epoch := 2
         mds := { buffer := { page_no := 0, dirty := false, page := [] }
                  pagefile := [], latest_epoch := 0, cb_durable := 1, cb_paged := 0 } }
        : NvwalContextFl).flusher_current_epoch_head_dsid ∧
    ({ segment_count := 2
       segments := [{ dsid := 1, written_bytes := 100, fsync_requested := false
                      fsync_completed := false, fsync_error := 0, nv_reader_pins := 0 },
                    { dsid := 0, written_bytes := 0, fsync_requested := false
                      fsync_completed := false, fsync_error := 0, nv_reader_pins := 0 }]
       flusher_current_nv_segment_dsid := 1
       flusher_current_epoch_head_dsid := 1
       flusher_current_epoch_head_offset := 100
       durable_epoch := 2, stable_epoch := 2
       mds := { buffer := { page_no := 1, dirty := true
                            page := [(1,
                              { epoch_id := 2, from_seg_id := 1, from_offset := 0
                                to_seg_id := 1, to_off := 100, user_metadata_0 := 0
                                user_metadata_1 := 0 })] }
                pagefile := [], latest_epoch := 1, cb_durable := 2, cb_paged := 0 } }
      : NvwalContextFl).flusher_current_epoch_head_dsid = 1 := by
  have h := C4_conclude_record_and_head 8
    { segment_count := 2
      segments := [{ dsid := 1, written_bytes := 100, fsync_requested := false
                     fsync_completed := false, fsync_error := 0, nv_reader_pins := 0 },
                   { dsid := 0, written_bytes := 0, fsync_requested := false
                     fsync_completed := false, fsync_error := 0, nv_reader_pins := 0 }]
      flusher_current_nv_segment_dsid := 1
      flusher_current_epoch_head_dsid := 1
      flusher_current_epoch_head_offset := 0
      durable_epoch := 1, stable_epoch := 2
      mds := { buffer := { page_no := 0, dirty := false, page := [] }
               pagefile := [], latest_epoch := 0, cb_durable := 1, cb_paged := 0 } }
    2
    { segment_count := 2
      segments := [{ dsid := 1, written_bytes := 100, fsync_requested := false
                     fsync_completed := false, fsync_error := 0, nv_reader_pins := 0 },
                   { dsid := 0, written_bytes := 0, fsync_requested := false
                     fsync_completed := false, fsync_error := 0, nv_reader_pins := 0 }]
      flusher_current_nv_segment_dsid := 1
      flusher_current_epoch_head_dsid := 1
      flusher_current_epoch_head_offset := 100
      durable_epoch := 2, stable_epoch := 2
      mds := { buffer := { page_no := 1, dirty := true
                           page := [(1,
                             { epoch_id := 2, from_seg_id := 1, from_offset := 0
                               to_seg_id := 1, to_off := 100, user_metadata_0 := 0
                               user_metadata_1 := 0 })] }
               pagefile := [], latest_epoch := 1, cb_durable := 2, cb_paged := 0 } }
    { epoch_id := 2, from_seg_id := 1, from_offset := 0, to_seg_id := 1
      to_off := 100, user_metadata_0 := 0, user_metadata_1 := 0 }
    rfl
  exact ⟨h.1, h.2.1, h.2.2.2.2.2.1⟩

theorem wrap_writer_epoch_frame_succ_lt {frame_count a : Nat}
    (h : a < frame_count) :
    wrap_writer_epoch_frame frame_count (a + 1) < frame_count := by
  unfold wrap_writer_epoch_frame
  split <;> omega

theorem wrap_writer_offset_eq_mod {buffer_size x : Nat}
    (h : x < 2 * buffer_size) :
    wrap_writer_offset buffer_size x = x % buffer_size := by
  unfold wrap_writer_offset
  split
  · rw [Nat.mod_eq_of_lt ‹_›]
  · rw [Nat.mod_eq_sub_mod (by omega), Nat.mod_eq_of_lt (by omega)]

/-- C7 counterexample: an idle writer whose active frame is unused
(log_epoch 0) receives a write for epoch 3.  The active frame's epoch
differs from the log epoch, yet assure_writer_active_frame repopulates
the slot in place (nvwal_api.c:146-148) and active_frame stays 0 instead
of advancing by one modulo the frame count as the claim states. -/
theorem C7_idle_frame_is_not_advanced :
    (nvwal_on_wal_write 5 4096
        { active_frame := 0, oldest_frame := 0, last_tail_offset := 0
          epoch_frames := List.replicate 5 default } 10 3).2.active_frame = 0 ∧
    (({ active_frame := 0, oldest_frame := 0, last_tail_offset := 0
        epoch_frames := List.replicate 5 default }
       : NvwalWriterContext).epoch_frames.getD 0 default).log_epoch ≠ 3 ∧
    wrap_writer_epoch_frame 5 (0 + 1) ≠ 0 := by
  decide

/-- C7 as amended: under the caller's space precondition (and in-range
offsets), nvwal_on_wal_write returns 0; if the active frame's epoch
already equals log_epoch the frame and active_frame are reused unchanged;
if the active frame is unused (log_epoch 0, the idle case) it is
repopulated in place with head_offset = tail_offset = last_tail_offset
before log_epoch is published, active_frame not moving; otherwise
active_frame advances by one modulo the frame count and the new frame is
so initialised; in all cases last_tail_offset becomes the (post-assure)
active frame's previous tail_offset plus bytes_written modulo the buffer
size, and that value is stored into the active frame's tail_offset
(nvwal_api.c:135-202). -/
theorem assure_reuse (frame_count : Nat) {w : NvwalWriterContext}
    {log_epoch : Nat}
    (h0 : (w.epoch_frames.getD w.active_frame default).log_epoch = log_epoch) :
    assure_writer_active_frame frame_count w log_epoch = w := by
  unfold assure_writer_active_frame
  rw [if_pos h0]

theorem assure_idle (frame_count : Nat) {w : NvwalWriterContext}
    {log_epoch : Nat}
    (h0 : (w.epoch_frames.getD w.active_frame default).log_epoch ≠ log_epoch)
    (h1 : (w.epoch_frames.getD w.active_frame default).log_epoch = 0) :
    assure_writer_active_frame frame_count w log_epoch =
      { w with
        epoch_frames := w.epoch_frames.set w.active_frame
          { log_epoch := log_epoch, head_offset := w.last_tail_offset
            tail_offset := w.last_tail_offset } } := by
  unfold assure_writer_active_frame kNvwalInvalidEpoch
  rw [if_neg h0, if_pos h1]

theorem assure_advance (frame_count : Nat) {w : NvwalWriterContext}
    {log_epoch : Nat}
    (h0 : (w.epoch_frames.getD w.active_frame default).log_epoch ≠ log_epoch)
    (h1 : (w.epoch_frames.getD w.active_frame default).log_epoch ≠ 0) :
    assure_writer_active_frame frame_count w log_epoch =
      { w with
        active_frame := wrap_writer_epoch_frame frame_count (w.active_frame + 1)
        epoch_frames := w.epoch_frames.set
          (wrap_writer_epoch_frame frame_count (w.active_frame + 1))
          { log_epoch := log_epoch, head_offset := w.last_tail_offset
            tail_offset := w.last_tail_offset } } := by
  unfold assure_writer_active_frame kNvwalInvalidEpoch
  rw [if_neg h0, if_neg h1]

theorem on_wal_write_core (frame_count buffer_size : Nat)
    (w : NvwalWriterContext) (bytes_written log_epoch : Nat)
    (hactive :
      (assure_writer_active_frame frame_count w log_epoch).active_frame <
        (assure_writer_active_frame frame_count w log_epoch).epoch_frames.length)
    (htail :
      ((assure_writer_active_frame frame_count w log_epoch).epoch_frames.getD
        (assure_writer_active_frame frame_count w log_epoch).active_frame
        default).tail_offset < buffer_size)
    (hbytes : bytes_written ≤ buffer_size) :
    (nvwal_on_wal_write frame_count buffer_size w bytes_written log_epoch).1 = 0 ∧
    (nvwal_on_wal_write frame_count buffer_size w bytes_written
        log_epoch).2.active_frame =
      (assure_writer_active_frame frame_count w log_epoch).active_frame ∧
    (nvwal_on_wal_write frame_count buffer_size w bytes_written
        log_epoch).2.last_tail_offset =
      (((assure_writer_active_frame frame_count w log_epoch).epoch_frames.getD
          (assure_writer_active_frame frame_count w log_epoch).active_frame
          default).tail_offset + bytes_written) % buffer_size ∧
    ((nvwal_on_wal_write frame_count buffer_size w bytes_written
          log_epoch).2.epoch_frames.getD
        (nvwal_on_wal_write frame_count buffer_size w bytes_written
          log_epoch).2.active_frame default).tail_offset =
      (nvwal_on_wal_write frame_count buffer_size w bytes_written
        log_epoch).2.last_tail_offset := by
  unfold nvwal_on_wal_write
  refine ⟨rfl, rfl, ?_, ?_⟩
  · exact wrap_writer_offset_eq_mod (by omega)
  · exact congrArg NvwalWriterEpochFrame.tail_offset
      (getD_set_self _ _ _ _ hactive)

/-- C7 as amended: under the caller's space precondition (in-range
offsets, bytes_written at most the buffer size), nvwal_on_wal_write
returns 0; if the active frame's epoch already equals log_epoch the frame
and active_frame are reused unchanged; if the active frame is unused
(log_epoch 0, the idle-writer case) it is repopulated in place with
head_offset = tail_offset = last_tail_offset before log_epoch is
published, active_frame not moving; otherwise active_frame advances by
one modulo the frame count and the new frame is so initialised; in all
cases last_tail_offset becomes the (post-assure) active frame's previous
tail_offset plus bytes_written modulo the buffer size, and that value is
stored into the active frame's tail_offset (nvwal_api.c:135-202). -/
theorem C7_on_wal_write_spec (frame_count buffer_size : Nat)
    (w : NvwalWriterContext) (bytes_written log_epoch : Nat)
    (hlen : w.epoch_frames.length = frame_count)
    (hactive : w.active_frame < frame_count)
    (hlt : w.last_tail_offset < buffer_size)
    (htail : (w.epoch_frames.getD w.active_frame default).tail_offset < buffer_size)
    (hbytes : bytes_written ≤ buffer_size) :
    (nvwal_on_wal_write frame_count buffer_size w bytes_written log_epoch).1 = 0 ∧
    (nvwal_on_wal_write frame_count buffer_size w bytes_written
        log_epoch).2.last_tail_offset =
      (((assure_writer_active_frame frame_count w log_epoch).epoch_frames.getD
          (assure_writer_active_frame frame_count w log_epoch).active_frame
          default).tail_offset + bytes_written) % buffer_size ∧
    ((nvwal_on_wal_write frame_count buffer_size w bytes_written
          log_epoch).2.epoch_frames.getD
        (nvwal_on_wal_write frame_count buffer_size w bytes_written
          log_epoch).2.active_frame default).tail_offset =
      (nvwal_on_wal_write frame_count buffer_size w bytes_written
        log_epoch).2.last_tail_offset ∧
    ((w.epoch_frames.getD w.active_frame default).log_epoch = log_epoch →
      assure_writer_active_frame frame_count w log_epoch = w) ∧
    ((w.epoch_frames.getD w.active_frame default).log_epoch ≠ log_epoch →
      (w.epoch_frames.getD w.active_frame default).log_epoch = 0 →
      (assure_writer_active_frame frame_count w log_epoch).active_frame =
        w.active_frame ∧
      (assure_writer_active_frame frame_count w log_epoch).epoch_frames.getD
          w.active_frame default =
        { log_epoch := log_epoch, head_offset := w.last_tail_offset
          tail_offset := w.last_tail_offset }) ∧
    ((w.epoch_frames.getD w.active_frame default).log_epoch ≠ log_epoch →
      (w.epoch_frames.getD w.active_frame default).log_epoch ≠ 0 →
      (assure_writer_active_frame frame_count w log_epoch).active_frame =
        wrap_writer_epoch_frame frame_count (w.active_frame + 1) ∧
      (assure_writer_active_frame frame_count w log_epoch).epoch_frames.getD
          (wrap_writer_epoch_frame frame_count (w.active_frame + 1)) default =
        { log_epoch := log_epoch, head_offset := w.last_tail_offset
          tail_offset := w.last_tail_offset }) := by
  have hcore := on_wal_write_core frame_count buffer_size w bytes_written log_epoch
  by_cases h0 : (w.epoch_frames.getD w.active_frame default).log_epoch = log_epoch
  · have ha := assure_reuse frame_count h0
    obtain ⟨c1, _, c3, c4⟩ := hcore
      (by rw [ha]; omega) (by rw [ha]; exact htail) hbytes
    exact ⟨c1, c3, c4, fun _ => ha,
      fun hne _ => absurd h0 hne, fun hne _ => absurd h0 hne⟩
  · by_cases h1 : (w.epoch_frames.getD w.active_frame default).log_epoch = 0
    · have ha := assure_idle frame_count h0 h1
      have hget :
          (assure_writer_active_frame frame_count w log_epoch).epoch_frames.getD
            w.active_frame default =
          { log_epoch := log_epoch, head_offset := w.last_tail_offset
            tail_offset := w.last_tail_offset } := by
        rw [ha]
        exact getD_set_self _ _ _ _ (by omega)
      have hact :
          (assure_writer_active_frame frame_count w log_epoch).active_frame =
            w.active_frame := by rw [ha]
      obtain ⟨c1, _, c3, c4⟩ := hcore
        (by rw [ha]; simp only [List.length_set]; omega)
        (by rw [hact, hget]; exact hlt) hbytes
      exact ⟨c1, c3, c4, fun hh => absurd hh h0,
        fun _ _ => ⟨hact, hget⟩, fun _ hh => absurd h1 hh⟩
    · have ha := assure_advance frame_count h0 h1
      have hwlt := wrap_writer_epoch_frame_succ_lt hactive
      have hget :
          (assure_writer_active_frame frame_count w log_epoch).epoch_frames.getD
            (wrap_writer_epoch_frame frame_count (w.active_frame + 1)) default =
          { log_epoch := log_epoch, head_offset := w.last_tail_offset
            tail_offset := w.last_tail_offset } := by
        rw [ha]
        exact getD_set_self _ _ _ _ (by omega)
      have hact :
          (assure_writer_active_frame frame_count w log_epoch).active_frame =
            wrap_writer_epoch_frame frame_count (w.active_frame + 1) := by rw [ha]
      obtain ⟨c1, _, c3, c4⟩ := hcore
        (by rw [ha]; simp only [List.length_set]; omega)
        (by rw [hact, hget]; exact hlt) hbytes
      exact ⟨c1, c3, c4, fun hh => absurd hh h0,
        fun _ hh => absurd hh h1, fun _ _ => ⟨hact, hget⟩⟩

/-- Witness for the amended C7: the idle writer of the counterexample
(all five frames unused, offsets 0) accepts a 10-byte write for epoch 3
in a 4096-byte buffer: the call returns 0 and the new tail is 10. -/
theorem C7_on_wal_write_spec_witness :
    (nvwal_on_wal_write 5 4096
        { active_frame := 0, oldest_frame := 0, last_tail_offset := 0
          epoch_frames := List.replicate 5 default } 10 3).1 = 0 ∧
    (nvwal_on_wal_write 5 4096
        { active_frame := 0, oldest_frame := 0, last_tail_offset := 0
          epoch_frames := List.replicate 5 default } 10 3).2.last_tail_offset =
      (((assure_writer_active_frame 5
            { active_frame := 0, oldest_frame := 0, last_tail_offset := 0
              epoch_frames := List.replicate 5 default } 3).epoch_frames.getD
          (assure_writer_active_frame 5
            { active_frame := 0, oldest_frame := 0, last_tail_offset := 0
              epoch_frames := List.replicate 5 default } 3).active_frame
          default).tail_offset + 10) % 4096 := by
  have h := C7_on_wal_write_spec 5 4096
    { active_frame := 0, oldest_frame := 0, last_tail_offset := 0
      epoch_frames := List.replicate 5 default } 10 3
    (by decide) (by decide) (by decide) (by decide) (by decide)
  exact ⟨h.1, h.2.1⟩

theorem epochAt_increment (n : Nat) :
    nvwal_increment_epoch (epochAt n) = epochAt (n + 1) := by
  unfold nvwal_increment_epoch epochAt two64
  rw [show (2:Nat) ^ 64 = 18446744073709551616 from by norm_num]
  split <;> omega

theorem epochAt_eq_near {d s : Nat} (h : epochAt s = epochAt d)
    (h1 : d ≤ s) (h2 : s ≤ d + 1) : s = d := by
  unfold epochAt two64 at h
  rw [show (2:Nat) ^ 64 = 18446744073709551616 from by norm_num] at h
  omega

theorem epochAt_succ_near {d s : Nat} (h : epochAt s = epochAt (d + 1))
    (h1 : d ≤ s) (h2 : s ≤ d + 1) : s = d + 1 := by
  unfold epochAt two64 at h
  rw [show (2:Nat) ^ 64 = 18446744073709551616 from by norm_num] at h
  omega

theorem equal_or_after_epochAt {a b : Nat} (hba : b ≤ a)
    (hk : a - b ≤ 2 ^ 63 - 2) :
    nvwal_is_epoch_equal_or_after (epochAt a) (epochAt b) = true := by
  unfold nvwal_is_epoch_equal_or_after nvwal_is_epoch_after epoch_diff epochAt two64
  rw [show (2:Nat) ^ 64 = 18446744073709551616 from by norm_num,
      show (2:Nat) ^ 63 = 9223372036854775808 from by norm_num]
  rw [show (2:Nat) ^ 63 = 9223372036854775808 from by norm_num] at hk
  simp only [Bool.or_eq_true, Bool.and_eq_true, decide_eq_true_eq]
  omega

theorem engineStep_ghost {st1 st2 : EpochState} {p d s : Nat}
    (hstep : EngineStep st1 st2)
    (hp : st1.paged = epochAt p) (hd : st1.durable = epochAt d)
    (hs : st1.stable = epochAt s)
    (hpd : p ≤ d) (hds : d ≤ s) (hsd : s ≤ d + 1) :
    ∃ p1 d1 s1, GhostInv st2 p1 d1 s1 ∧ p ≤ p1 ∧ d1 ≤ d + 1 := by
  cases hstep with
  | advance e =>
    rcases Decidable.em (nvwal_increment_epoch st1.durable = e) with h1 | h1
    · rcases Decidable.em (st1.stable = st1.durable) with h2 | h2
      · have hval : (nvwal_advance_stable_epoch st1 e).2 = { st1 with stable := e } := by
          unfold nvwal_advance_stable_epoch
          rw [if_neg (fun hc => hc h1), if_pos h2]
        rw [hval]
        have hsd' : s = d := epochAt_eq_near (by rw [← hs, ← hd, h2]) hds hsd
        refine ⟨p, d, d + 1, ⟨hp, hd, ?_, hpd, by omega, by omega⟩, le_rfl, by omega⟩
        show e = epochAt (d + 1)
        rw [← h1, hd, epochAt_increment]
      · have hval : (nvwal_advance_stable_epoch st1 e).2 = st1 := by
          unfold nvwal_advance_stable_epoch
          rw [if_neg (fun hc => hc h1), if_neg h2]
        rw [hval]
        exact ⟨p, d, s, ⟨hp, hd, hs, hpd, hds, hsd⟩, le_rfl, by omega⟩
    · have hval : (nvwal_advance_stable_epoch st1 e).2 = st1 := by
        unfold nvwal_advance_stable_epoch
        rw [if_pos h1]
      rw [hval]
      exact ⟨p, d, s, ⟨hp, hd, hs, hpd, hds, hsd⟩, le_rfl, by omega⟩
  | conclude hstable hne =>
    have hsucc : epochAt s = epochAt (d + 1) := by
      rw [← hs, hstable, hd, epochAt_increment]
    have hsd' : s = d + 1 := epochAt_succ_near hsucc hds hsd
    refine ⟨p, d + 1, d + 1,
      ⟨hp, ?_, ?_, by omega, le_rfl, by omega⟩, le_rfl, by omega⟩
    · show st1.stable = epochAt (d + 1)
      rw [hs, hsd']
    · show st1.stable = epochAt (d + 1)
      rw [hs, hsd']
  | concludePaged hstable hne =>
    have hsucc : epochAt s = epochAt (d + 1) := by
      rw [← hs, hstable, hd, epochAt_increment]
    have hsd' : s = d + 1 := epochAt_succ_near hsucc hds hsd
    refine ⟨d, d + 1, d + 1,
      ⟨hd, ?_, ?_, by omega, le_rfl, by omega⟩, hpd, by omega⟩
    · show st1.stable = epochAt (d + 1)
      rw [hs, hsd']
    · show st1.stable = epochAt (d + 1)
      rw [hs, hsd']

theorem reachable_ghost {n : Nat} {st0 st : EpochState}
    (h : ReachableN n st0 st) (m : Nat)
    (hinit : st0 = ⟨epochAt m, epochAt m, epochAt m⟩) :
    ∃ p d s, GhostInv st p d s ∧ m ≤ p ∧ d ≤ m + n := by
  induction h with
  | refl _ =>
    subst hinit
    exact ⟨m, m, m, ⟨rfl, rfl, rfl, le_rfl, le_rfl, by omega⟩, le_rfl, by omega⟩
  | step hr hstep ih =>
    obtain ⟨p, d, s, ⟨hp, hd, hs, hpd, hds, hsd⟩, hmp, hdn⟩ := ih hinit
    obtain ⟨p1, d1, s1, hg1, hpp1, hd1⟩ :=
      engineStep_ghost hstep hp hd hs hpd hds hsd
    exact ⟨p1, d1, s1, hg1, by omega, by omega⟩

/-- C3: every state of the epoch-variable machine reachable from a
uniform initial state (stable = durable = paged) satisfies
paged_mds_epoch <= durable_epoch <= stable_epoch under the modular epoch
order: nvwal_advance_stable_epoch only ever compare-and-swaps
stable_epoch from durable_epoch to increment(durable_epoch)
(nvwal_api.c:59-75), the flusher advances durable_epoch only to a target
equal to stable_epoch that is increment(durable_epoch)
(nvwal_api.c:407-449, 334-405), and paged_mds_epoch is only ever set to
the durable epoch current at that moment (nvwal_api.c:375-390,
nvwal_mds.c:1240-1249).  The step bound keeps the counter gaps inside
the half range where the 64-bit modular order is meaningful. -/
theorem C3_epoch_order_invariant (m n : Nat) (st : EpochState)
    (hn : n ≤ 2 ^ 63 - 3)
    (h : ReachableN n ⟨epochAt m, epochAt m, epochAt m⟩ st) :
    nvwal_is_epoch_equal_or_after st.stable st.durable = true ∧
    nvwal_is_epoch_equal_or_after st.durable st.paged = true ∧
    nvwal_is_epoch_equal_or_after st.stable st.paged = true := by
  obtain ⟨p, d, s, ⟨hp, hd, hs, hpd, hds, hsd⟩, hmp, hdn⟩ := reachable_ghost h m rfl
  rw [hp, hd, hs]
  have hb : (2:Nat) ^ 63 - 3 + 1 ≤ 2 ^ 63 - 2 := by norm_num
  exact ⟨equal_or_after_epochAt hds (by omega),
         equal_or_after_epochAt hpd (by omega),
         equal_or_after_epochAt (hpd.trans hds) (by omega)⟩

/-- Witness for C3: from the uniform state at epoch 1, advance stable to
2 then let the flusher conclude epoch 2; the reached state
(stable 2, durable 2, paged 1) satisfies the three modular orderings. -/
theorem C3_epoch_order_invariant_witness :
    nvwal_is_epoch_equal_or_after (⟨2, 2, 1⟩ : EpochState).stable
      (⟨2, 2, 1⟩ : EpochState).durable = true ∧
    nvwal_is_epoch_equal_or_after (⟨2, 2, 1⟩ : EpochState).durable
      (⟨2, 2, 1⟩ : EpochState).paged = true ∧
    nvwal_is_epoch_equal_or_after (⟨2, 2, 1⟩ : EpochState).stable
      (⟨2, 2, 1⟩ : EpochState).paged = true := by
  have s1 : EngineStep ⟨epochAt 0, epochAt 0, epochAt 0⟩ ⟨2, 1, 1⟩ := by
    have h := EngineStep.advance ⟨epochAt 0, epochAt 0, epochAt 0⟩ 2
    have he : (nvwal_advance_stable_epoch ⟨epochAt 0, epochAt 0, epochAt 0⟩ 2).2
        = ⟨2, 1, 1⟩ := by decide
    rw [he] at h
    exact h
  have s2 : EngineStep ⟨2, 1, 1⟩ ⟨2, 2, 1⟩ :=
    EngineStep.conclude ⟨2, 1, 1⟩ (by decide) (by decide)
  exact C3_epoch_order_invariant 0 2 ⟨2, 2, 1⟩ (by norm_num)
    (ReachableN.step (ReachableN.step (ReachableN.refl _) s1) s2)

end Nvwal
